import Mathlib

/-!
Verification development for the `uit-web-scaper` knowledge-graph core.

The Python modules under `src/modules/` are shallowly embedded:

* `text_processor.py` — regular-expression pattern extraction and semantic
  classification.  Python `re` behaviour (leftmost match, greedy/lazy
  backtracking, `findall` continuation past the previous match) is embedded by
  a small fuel-driven backtracking matcher over an explicit pattern syntax.
* `graph_builder.py` — Cypher-query construction (`create_node`,
  `create_relationship`, `execute`) and the operation queue.
* `entity_processors/faculty_processor.py`, `course_processor.py` — the
  fragment-walking entity reconstruction state machines.
* `knowledge_graph.py` — the orchestrator threading one shared
  `GraphBuilder` queue through the per-domain processors.

Python strings are Lean `String`s; Python dicts that act as ordered records
are association lists `List (String × String)`; `None` is `Option.none`;
raised exceptions are `Except` errors.
-/

/-! ### Python string helpers -/

/-- Python truthiness of a string: non-empty. -/
def truthyStr (s : String) : Bool := s != ""

/-- Python truthiness of an optional string (`None` and `""` are falsy). -/
def truthyOptStr : Option String → Bool
  | none => false
  | some s => s != ""

/-- Is `pre` a prefix of `l` (character lists)? -/
def isPreChars : List Char → List Char → Bool
  | [], _ => true
  | _ :: _, [] => false
  | a :: as, b :: bs => a == b && isPreChars as bs

/-- Does `hay` contain `needle` as a contiguous substring (character lists)? -/
def hasSubChars (needle : List Char) : List Char → Bool
  | [] => needle.isEmpty
  | c :: rest => isPreChars needle (c :: rest) || hasSubChars needle rest

/-- Python `needle in hay` on strings. -/
def pyIn (needle hay : String) : Bool := hasSubChars needle.data hay.data

/-- Helper for `pySplitWs`: accumulate the current word (reversed) while
scanning; whitespace closes the word. -/
def splitWsAux : List Char → List Char → List String
  | [], acc => if acc.isEmpty then [] else [String.mk acc.reverse]
  | c :: rest, acc =>
    if c.isWhitespace then
      if acc.isEmpty then splitWsAux rest [] else String.mk acc.reverse :: splitWsAux rest []
    else splitWsAux rest (c :: acc)

/-- Python `str.split()` with no arguments: split on whitespace runs,
dropping empty pieces. -/
def pySplitWs (s : String) : List String := splitWsAux s.data []

/-- Python `str.strip(chars)`: drop characters from `cs` at both ends. -/
def pyStripChars (s : String) (cs : List Char) : String :=
  String.mk
    (((s.data.dropWhile (fun c => cs.contains c)).reverse.dropWhile
      (fun c => cs.contains c)).reverse)

/-- Python `str.strip()` with no arguments: drop whitespace at both ends
(the semantics of `String.trim`, re-implemented over the character list so
that proofs can evaluate it). -/
def pyTrim (s : String) : String :=
  String.mk
    (((s.data.dropWhile Char.isWhitespace).reverse.dropWhile Char.isWhitespace).reverse)

/-- Python `str.lower()` (ASCII case folding; the non-ASCII inputs of this
development are already lower-case, as `Char.toLower` is the identity on
them). -/
def pyLower (s : String) : String := String.mk (s.data.map Char.toLower)

/-- Split at every occurrence of a separator character, keeping empty
pieces: Python `str.split(',')`. -/
def splitCharAux (sep : Char) : List Char → List (List Char)
  | [] => [[]]
  | c :: rest =>
    if c == sep then [] :: splitCharAux sep rest
    else
      match splitCharAux sep rest with
      | [] => [[c]]
      | w :: ws => (c :: w) :: ws

/-- Python `str.split(sep)` for a one-character separator. -/
def pySplitChar (sep : Char) (s : String) : List String :=
  (splitCharAux sep s.data).map String.mk

/-- Delete every non-overlapping occurrence of `old` (left to right):
Python `str.replace(old, '')` for non-empty `old`.  Fuel-driven like the
matcher. -/
def removeAllAux (old : List Char) : Nat → List Char → List Char
  | 0, cs => cs
  | fl + 1, cs =>
    match cs with
    | [] => []
    | c :: rest =>
      if isPreChars old (c :: rest) then
        removeAllAux old fl (List.drop old.length (c :: rest))
      else c :: removeAllAux old fl rest

/-- Python `str.replace(old, '')` for non-empty `old`. -/
def pyRemoveAll (old : String) (s : String) : String :=
  String.mk (removeAllAux old.data (s.data.length + 1) s.data)

/-! ### A small backtracking regular-expression engine

The source uses Python `re` patterns.  `Pat` is the abstract syntax of the
fragment of `re` those patterns use; `mtch` is a continuation-passing
backtracking matcher whose alternation and repetition orders replicate
Python's (left alternative first; greedy repetition consumes most first,
lazy repetition least first).  `fuel` bounds recursion depth only; it is
chosen large enough for every string the development evaluates on. -/

/-- Python `\w` (word character) — ASCII alphanumerics, underscore, and any
non-ASCII character (Python 3 `re` is Unicode-aware; the inputs in this
development only use non-ASCII letters, which are word characters). -/
def isWordChar (c : Char) : Bool := c.isAlphanum || c == '_' || decide (c.val > 127)

/-- Pattern syntax: empty, character class, concatenation, alternation,
bounded repetition `\x7bm,n\x7d` (greedy or lazy) and word boundary `\b`. -/
inductive Pat where
  | eps : Pat
  | cls : (Char → Bool) → Pat
  | cat : Pat → Pat → Pat
  | alt : Pat → Pat → Pat
  | rep : Pat → Nat → Option Nat → Bool → Pat
  | wb : Pat

/-- Literal string pattern. -/
def litPat (s : String) : Pat :=
  s.data.foldr (fun c p => Pat.cat (Pat.cls (fun x => x == c)) p) Pat.eps

/-- Case-insensitive literal string pattern (`re.IGNORECASE`). -/
def litPatCI (s : String) : Pat :=
  s.data.foldr (fun c p => Pat.cat (Pat.cls (fun x => x.toLower == c.toLower)) p) Pat.eps

/-- `p?` — optional, greedy. -/
def optPat (p : Pat) : Pat := Pat.rep p 0 (some 1) true

/-- `p+` — one or more, greedy. -/
def plusPat (p : Pat) : Pat := Pat.rep p 1 none true

/-- Word character at index `i` (out of range counts as non-word). -/
def wordAt (s : List Char) (i : Nat) : Bool :=
  match s[i]? with
  | some c => isWordChar c
  | none => false

/-- Python `\b`: the word-ness of the characters on either side differs. -/
def atBoundary (s : List Char) (i : Nat) : Bool :=
  (decide (0 < i) && wordAt s (i - 1)) != wordAt s i

/-- Backtracking matcher.  `mtch s fuel p i k` tries to match `p` at
position `i` of `s` and passes the end position of each candidate match to
the continuation `k`, in Python's preference order, returning the first
success.  Repetition of an empty match is cut off (none of the embedded
patterns repeat a nullable sub-pattern). -/
def mtch (s : List Char) : Nat → Pat → Nat → (Nat → Option Nat) → Option Nat
  | 0, _, _, _ => none
  | fuel + 1, p, i, k =>
    match p with
    | .eps => k i
    | .wb => if atBoundary s i then k i else none
    | .cls f =>
      match s[i]? with
      | some c => if f c then k (i + 1) else none
      | none => none
    | .cat p1 p2 => mtch s fuel p1 i (fun j => mtch s fuel p2 j k)
    | .alt p1 p2 =>
      match mtch s fuel p1 i k with
      | some r => some r
      | none => mtch s fuel p2 i k
    | .rep p1 lo hi g =>
      match lo with
      | lo' + 1 =>
        mtch s fuel p1 i (fun j => mtch s fuel (.rep p1 lo' (hi.map (· - 1)) g) j k)
      | 0 =>
        match hi with
        | some 0 => k i
        | _ =>
          if g then
            match mtch s fuel p1 i
                (fun j => if j == i then none else mtch s fuel (.rep p1 0 (hi.map (· - 1)) g) j k) with
            | some r => some r
            | none => k i
          else
            match k i with
            | some r => some r
            | none =>
              mtch s fuel p1 i
                (fun j => if j == i then none else mtch s fuel (.rep p1 0 (hi.map (· - 1)) g) j k)

/-- End position of the preferred match of `p` anchored at `i`, if any.
The fuel comfortably exceeds the maximal backtracking depth for the
patterns in this development. -/
def matchEnd (s : List Char) (p : Pat) (i : Nat) : Option Nat :=
  mtch s (8 * (s.length + 2) + 64) p i some

/-- First (leftmost) match of `p` at or after position `i`: `re.search`.
Returns the span `(start, end)`. -/
def scanFrom (s : List Char) (p : Pat) : Nat → Nat → Option (Nat × Nat)
  | 0, _ => none
  | fl + 1, i =>
    if i ≤ s.length then
      match matchEnd s p i with
      | some j => some (i, j)
      | none => scanFrom s p fl (i + 1)
    else none

/-- All non-overlapping match spans, leftmost first: `re.findall` /
`re.finditer` scanning order (an empty match advances by one). -/
def findSpans (s : List Char) (p : Pat) : Nat → Nat → List (Nat × Nat)
  | 0, _ => []
  | fl + 1, i =>
    match scanFrom s p (s.length + 1) i with
    | some (a, b) => (a, b) :: findSpans s p fl (max (a + 1) b)
    | none => []

/-- The substring of `s` spanning `[a, b)`. -/
def substringOf (s : List Char) (a b : Nat) : String :=
  String.mk ((s.drop a).take (b - a))

/-- `re.findall` returning full matches (patterns without capture groups). -/
def pyFindall (p : Pat) (t : String) : List String :=
  (findSpans t.data p (t.data.length + 1) 0).map (fun ab => substringOf t.data ab.1 ab.2)

/-- `re.search` returning the matched substring. -/
def pySearch (p : Pat) (t : String) : Option String :=
  (scanFrom t.data p (t.data.length + 1) 0).map (fun ab => substringOf t.data ab.1 ab.2)

/-- `re.sub(p, '', t)`: delete every non-overlapping match. -/
def pySubEmpty (p : Pat) (t : String) : String :=
  let spans := findSpans t.data p (t.data.length + 1) 0
  String.mk
    ((t.data.enum.filter
      (fun ic => !(spans.any (fun ab => decide (ab.1 ≤ ic.1) && decide (ic.1 < ab.2))))).map
      (fun ic => ic.2))

/-! ### `text_processor.extract_regex_patterns`

The six patterns of `src/modules/text_processor.py`, lines 10–17, transcribed
into `Pat`. -/

/-- Character class `[A-Za-z0-9._%+-]` (local part of the email pattern). -/
def emailLocalChar (c : Char) : Bool :=
  c.isAlpha || c.isDigit || "._%+-".data.contains c

/-- Character class `[A-Za-z0-9.-]` (domain part of the email pattern). -/
def emailDomainChar (c : Char) : Bool :=
  c.isAlpha || c.isDigit || c == '.' || c == '-'

/-- `\b[A-Za-z0-9._%+-]+@[A-Za-z0-9.-]+\.[A-Z|a-z]\x7b2,\x7d\b`.  Note the
source's top-level-domain class literally includes `|`. -/
def emailPat : Pat :=
  .cat .wb (.cat (plusPat (.cls emailLocalChar))
    (.cat (.cls (fun c => c == '@')) (.cat (plusPat (.cls emailDomainChar))
      (.cat (.cls (fun c => c == '.'))
        (.cat (.rep (.cls (fun c => c.isAlpha || c == '|')) 2 none true) .wb)))))

/-- `\b(?:\+84|0)(?:\d\x7b9\x7d)\b` — the Vietnam-locale phone pattern
(source comment: "change to vietnam phone number"). -/
def phonePat : Pat :=
  .cat .wb (.cat (.alt (litPat "+84") (litPat "0"))
    (.cat (.rep (.cls Char.isDigit) 9 (some 9) true) .wb))

/-- `[A-Z]\x7b2,4\x7d\d\x7b3,4\x7d` — the core of a course code. -/
def courseCodeCore : Pat :=
  .cat (.rep (.cls Char.isUpper) 2 (some 4) true) (.rep (.cls Char.isDigit) 3 (some 4) true)

/-- `\b[A-Z]\x7b2,4\x7d\d\x7b3,4\x7d(?:\.[A-Z]\x7b2,4\x7d\d\x7b3,4\x7d)?\b|.+\s*\(.*?\)`.
The second alternative (anything up to a parenthesised group) is part of the
source pattern.  `.` is any character except newline. -/
def coursePat : Pat :=
  .alt
    (.cat .wb (.cat courseCodeCore
      (.cat (optPat (.cat (.cls (fun c => c == '.')) courseCodeCore)) .wb)))
    (.cat (plusPat (.cls (fun c => c != '\n')))
      (.cat (.rep (.cls Char.isWhitespace) 0 none true)
        (.cat (.cls (fun c => c == '('))
          (.cat (.rep (.cls (fun c => c != '\n')) 0 none false)
            (.cls (fun c => c == ')'))))))

/-- `\b(19|20)\d\x7b2\x7d\b`. -/
def yearPat : Pat :=
  .cat .wb (.cat (.alt (litPat "19") (litPat "20"))
    (.cat (.rep (.cls Char.isDigit) 2 (some 2) true) .wb))

/-- The year pattern has a capture group `(19|20)`, so Python `findall`
returns the group — the first two characters of each full match. -/
def pyFindallYears (t : String) : List String :=
  (findSpans t.data yearPat (t.data.length + 1) 0).map
    (fun ab => substringOf t.data ab.1 (ab.1 + 2))

/-- Hexadecimal digit, `[0-9a-fA-F]`. -/
def hexChar (c : Char) : Bool :=
  c.isDigit || (decide ('a' ≤ c) && decide (c ≤ 'f')) || (decide ('A' ≤ c) && decide (c ≤ 'F'))

/-- One repetition of the URL body:
`(?:[a-zA-Z]|[0-9]|[$-_@.&+]|[!*\\(\\),]|(?:%[0-9a-fA-F][0-9a-fA-F]))`.
`[$-_@.&+]` is the code-point range `$`..`_` (which already contains
`@ . & +`). -/
def urlPiece : Pat :=
  .alt (.cls Char.isAlpha)
    (.alt (.cls Char.isDigit)
      (.alt (.cls (fun c => decide ('$' ≤ c) && decide (c ≤ '_')))
        (.alt (.cls (fun c => "!*\\(),".data.contains c))
          (.cat (.cls (fun c => c == '%')) (.cat (.cls hexChar) (.cls hexChar))))))

/-- `http[s]?://(?:…)+`. -/
def urlPat : Pat :=
  .cat (litPat "http") (.cat (optPat (.cls (fun c => c == 's')))
    (.cat (litPat "://") (plusPat urlPiece)))

/-- `\b[A-Z]?\d\x7b1,4\x7d[A-Z]?\b(?:\s*(?:Room|Rm|Office|Bldg|Building))?`
compiled with `re.IGNORECASE`, under which `[A-Z]` matches any ASCII
letter. -/
def roomPat : Pat :=
  .cat .wb (.cat (optPat (.cls Char.isAlpha))
    (.cat (.rep (.cls Char.isDigit) 1 (some 4) true)
      (.cat (optPat (.cls Char.isAlpha))
        (.cat .wb
          (optPat (.cat (.rep (.cls Char.isWhitespace) 0 none true)
            (.alt (litPatCI "Room") (.alt (litPatCI "Rm")
              (.alt (litPatCI "Office") (.alt (litPatCI "Bldg") (litPatCI "Building")))))))))))

/-- `text_processor.extract_regex_patterns`: run all six patterns and keep
only the non-empty result lists, in the source's insertion order. -/
def extract_regex_patterns (text : String) : List (String × List String) :=
  let patterns : List (String × List String) :=
    [("emails", pyFindall emailPat text),
     ("phone_numbers", pyFindall phonePat text),
     ("course_codes", pyFindall coursePat text),
     ("years", pyFindallYears text),
     ("urls", pyFindall urlPat text),
     ("room_numbers", pyFindall roomPat text)]
  patterns.filter (fun kv => !kv.2.isEmpty)

/-! ### `text_processor.classify_element_semantic_type`

`element_data` is a dict with keys `text`, `html_attributes` (itself with
optional `class` list and `id`), and `regex_patterns`; missing keys default
as in the source (`.get` with default). -/

/-- Input record of `classify_element_semantic_type`. -/
structure ElementData where
  text : String
  htmlClass : List String := []
  htmlId : Option String := none
  regex_patterns : List (String × List String) := []
deriving DecidableEq

/-- `element_data.get('regex_patterns', \x7b\x7d).get(k)` truthiness helper:
the match list stored under `k`, or `[]`. -/
def rpGet (e : ElementData) (k : String) : List String :=
  (e.regex_patterns.lookup k).getD []

/-- `' '.join(html_attrs.get('class', [])).lower() +
(html_attrs.get('id') or '').lower()` — the classifier checks keyword
containment in this concatenation. -/
def classesId (e : ElementData) : String :=
  pyLower (String.intercalate " " e.htmlClass) ++ pyLower (e.htmlId.getD "")

/-- Faculty keywords looked up in the lowered text. -/
def facultyTextKeys : List String :=
  ["giáo sư", "gs.", "phó giáo sư", "pgs.", "tiến sĩ", "ts.", "giảng viên",
   "gv.", "giáo viên", "giảng dạy"]

/-- Faculty keywords looked up in class/id attributes. -/
def facultyAttrKeys : List String := ["giảng viên", "nhân sự", "giáo sư", "giảng dạy"]

/-- Department keywords (text). -/
def deptTextKeys : List String := ["khoa", "ngành"]

/-- Course keywords (text). -/
def courseTextKeys : List String := ["môn", "tín chỉ", "điều kiện tiên quyết", "đề cương"]

/-- Navigation keywords (class/id). -/
def navKeys : List String := ["nav", "menu", "breadcrumb", "sidebar", "title-menu"]

/-- Main-content keywords (class/id). -/
def contentKeys : List String := ["content", "nội dung", "chính", "bài viết", "bài đăng"]

/-- Header/footer/banner keywords (class/id). -/
def pageStructKeys : List String := ["đầu trang", "cuối trang", "banner"]

/-- Rule: a faculty keyword occurs in the lowered text. -/
def condFacultyText (e : ElementData) : Bool :=
  facultyTextKeys.any (fun k => pyIn k (pyLower e.text))

/-- Rule: a faculty keyword occurs in `classes + element_id`. -/
def condFacultyAttr (e : ElementData) : Bool :=
  facultyAttrKeys.any (fun k => pyIn k (classesId e))

/-- Rule: a department keyword occurs in the lowered text. -/
def condDept (e : ElementData) : Bool :=
  deptTextKeys.any (fun k => pyIn k (pyLower e.text))

/-- Rule: the pattern extractor found course codes. -/
def condCourseRegex (e : ElementData) : Bool := !(rpGet e "course_codes").isEmpty

/-- Rule: a course keyword occurs in the lowered text. -/
def condCourseText (e : ElementData) : Bool :=
  courseTextKeys.any (fun k => pyIn k (pyLower e.text))

/-- Rule: the pattern extractor found emails or phone numbers. -/
def condContact (e : ElementData) : Bool :=
  !(rpGet e "emails").isEmpty || !(rpGet e "phone_numbers").isEmpty

/-- Rule: a navigation keyword occurs in `classes + element_id`. -/
def condNav (e : ElementData) : Bool := navKeys.any (fun k => pyIn k (classesId e))

/-- Rule: a content keyword occurs in `classes + element_id`. -/
def condContent (e : ElementData) : Bool := contentKeys.any (fun k => pyIn k (classesId e))

/-- Rule: a header/footer/banner keyword occurs in `classes + element_id`. -/
def condPageStruct (e : ElementData) : Bool :=
  pageStructKeys.any (fun k => pyIn k (classesId e))

/-- The `semantic_types` list built by the classifier before the fallback:
the tag of every rule that fires is appended, in source order.  The result
is a Python list — duplicate tags are retained. -/
def classifyTags (e : ElementData) : List String :=
  (if condFacultyText e then ["faculty_member"] else []) ++
  (if condFacultyAttr e then ["faculty_member"] else []) ++
  (if condDept e then ["department"] else []) ++
  (if condCourseRegex e then ["course_info"] else []) ++
  (if condCourseText e then ["course_info"] else []) ++
  (if condContact e then ["contact_info"] else []) ++
  (if condNav e then ["navigation"] else []) ++
  (if condContent e then ["main_content"] else []) ++
  (if condPageStruct e then ["page_structure"] else [])

/-- `classify_element_semantic_type`:
`return semantic_types if semantic_types else ['general_content']`. -/
def classify_element_semantic_type (e : ElementData) : List String :=
  if (classifyTags e).isEmpty then ["general_content"] else classifyTags e

/-! ### `graph_builder.GraphBuilder`

A queued query is a Cypher text plus its parameter dict.  `create_node` on
an empty properties dict evaluates `next(iter(properties.keys()))`, which
raises `StopIteration`; the embedding returns it as an `Except` error.
`PyErr.invalidEntity` represents the `InvalidEntity` error named by the
specification's error taxonomy; the source never raises it. -/

/-- One queued Cypher query (`\x7b"query": …, "params": …\x7d`). -/
structure Query where
  query : String
  params : List (String × String)
deriving DecidableEq

/-- Error values observable at the graph-builder boundary. -/
inductive PyErr where
  | stopIteration : PyErr
  | invalidEntity : PyErr
deriving DecidableEq

/-- The `MERGE … SET …` text built by `create_node` given the primary key
and the keys of the remaining properties. -/
def nodeQueryText (label pk : String) (setKeys : List String) : String :=
  let base := "MERGE (n:" ++ label ++ " \x7b" ++ pk ++ ": $" ++ pk ++ "\x7d) "
  if setKeys.isEmpty then base
  else base ++ "SET " ++ String.intercalate ", " (setKeys.map (fun k => "n." ++ k ++ " = $" ++ k))

/-- `GraphBuilder.create_node` (graph_builder.py lines 33–60): the first
property key is the MERGE key, every other key gets a SET clause, the whole
dict becomes the parameters.  Empty properties raise `StopIteration`. -/
def create_node (label : String) (properties : List (String × String)) : Except PyErr Query :=
  match properties with
  | [] => .error .stopIteration
  | (pk, _) :: _ =>
    .ok ⟨nodeQueryText label pk
      ((properties.filter (fun kv => kv.1 != pk)).map (fun kv => kv.1)), properties⟩

/-- `GraphBuilder.create_relationship` (graph_builder.py lines 62–93):
MATCH both endpoints by key, MERGE the typed edge; parameters are
`from_value`, `to_value` and the relationship properties.  A `None` /
empty relationship-property dict is the empty list. -/
def create_relationship (fromLabel fromProperty fromValue toLabel toProperty toValue
    relType : String) (relProps : List (String × String)) : Query :=
  let base := "MATCH (a:" ++ fromLabel ++ " \x7b" ++ fromProperty ++ ": $from_value\x7d) " ++
    "MATCH (b:" ++ toLabel ++ " \x7b" ++ toProperty ++ ": $to_value\x7d) "
  if relProps.isEmpty then
    ⟨base ++ "MERGE (a)-[:" ++ relType ++ "]->(b)",
     [("from_value", fromValue), ("to_value", toValue)]⟩
  else
    ⟨base ++ "MERGE (a)-[r:" ++ relType ++ " \x7b" ++
      String.intercalate ", " (relProps.map (fun kv => kv.1 ++ ": $" ++ kv.1)) ++
      "\x7d]->(b)",
     ("from_value", fromValue) :: ("to_value", toValue) :: relProps⟩

/-- The external Neo4j driver, abstracted: whether a driver is connected,
and which queries `session.run` accepts without raising. -/
structure Connector where
  hasDriver : Bool
  ok : Query → Bool

/-- `Neo4jConnector.execute_queries` (db_connector.py lines 71–95): without
a driver, log and return 0; otherwise run each query, counting successes —
per-query failures are caught and only logged. -/
def execute_queries (c : Connector) (qs : List Query) : Nat :=
  if !c.hasDriver then 0
  else qs.countP (fun q => c.ok q)

/-- `GraphBuilder.execute` (graph_builder.py lines 95–108): empty queue →
return 0 without touching the connector; otherwise delegate to
`execute_queries` and clear the queue.  Result: (returned count, queue
afterwards, whether the connector was invoked). -/
def GraphBuilder.execute (c : Connector) (queue : List Query) : Nat × List Query × Bool :=
  if queue.isEmpty then (0, queue, false)
  else (execute_queries c queue, [], true)

/-! ### Property-graph store semantics for the emitted operations

Modelled from the spec: the repository emits Cypher text and never contains
the graph engine, so the apply-time meaning of a node upsert
("match-or-create the node by `\x7blabel, key: value\x7d`, then set all
remaining properties") and of a relationship upsert ("match both endpoint
nodes by their key and merge a directed edge; if either endpoint does not
exist, the operation is a no-op") is taken from the specification's
contract for `create_node` / `create_relationship` (spec §4.4, §6). -/

/-- A stored node: label and property map. -/
structure GNode where
  label : String
  props : List (String × String)
deriving DecidableEq

/-- A stored edge, keyed the way the emitted MERGE identifies it: endpoint
labels/keys/values, relationship type, and relationship properties. -/
structure GEdge where
  fromLabel : String
  fromProp : String
  fromValue : String
  toLabel : String
  toProp : String
  toValue : String
  relType : String
  relProps : List (String × String)
deriving DecidableEq

/-- A property-graph store. -/
structure Store where
  nodes : List GNode
  edges : List GEdge
deriving DecidableEq

/-- Property lookup in a property map (first binding wins). -/
def getProp : List (String × String) → String → Option String
  | [], _ => none
  | (k, v) :: rest, key => if k = key then some v else getProp rest key

/-- `SET n.k = v`: replace the binding of `k` in place, or append it. -/
def setProp : List (String × String) → String → String → List (String × String)
  | [], k, v => [(k, v)]
  | (k', v') :: rest, k, v =>
    if k' = k then (k', v) :: rest else (k', v') :: setProp rest k v

/-- Apply a list of SET clauses in order. -/
def setProps (p : List (String × String)) (u : List (String × String)) :
    List (String × String) :=
  u.foldl (fun acc kv => setProp acc kv.1 kv.2) p

/-- Does node `n` match `(:label \x7bpk: v\x7d)`? -/
def nodeMatches (n : GNode) (label pk v : String) : Bool :=
  decide (n.label = label) && decide (getProp n.props pk = some v)

/-- The abstract operation carried by one emitted query: a node upsert with
the full ordered property dict (`create_node`), or a relationship merge
with the endpoint keys (`create_relationship`). -/
inductive Op where
  | node (label : String) (props : List (String × String)) : Op
  | rel (fromLabel fromProp fromValue toLabel toProp toValue relType : String)
      (relProps : List (String × String)) : Op
deriving DecidableEq

/-- The SET phase of a node upsert applied to one matched node. -/
def updNode (rest : List (String × String)) (n : GNode) : GNode :=
  { n with props := setProps n.props rest }

/-- Node-upsert effect on one stored node: SET the remaining properties if
it matches, leave it alone otherwise. -/
def stepNode (label pk v : String) (rest : List (String × String)) (n : GNode) : GNode :=
  if nodeMatches n label pk v then updNode rest n else n

/-- Apply one operation to a store (MERGE semantics, modelled from the
spec).  A node upsert updates every node matching the label and first-key
binding, or creates one; a relationship merge requires both endpoints to
match existing nodes and adds the edge if absent. -/
def applyOp (s : Store) : Op → Store
  | .node label props =>
    match props with
    | [] => s
    | (pk, v) :: _ =>
      let rest := props.filter (fun kv => kv.1 != pk)
      if s.nodes.any (fun n => nodeMatches n label pk v) then
        { s with nodes := s.nodes.map (stepNode label pk v rest) }
      else
        { s with nodes := s.nodes ++ [⟨label, setProps [(pk, v)] rest⟩] }
  | .rel fl fp fv tl tp tv rt rp =>
    if (s.nodes.any (fun n => nodeMatches n fl fp fv)) &&
       (s.nodes.any (fun n => nodeMatches n tl tp tv)) then
      let e : GEdge := ⟨fl, fp, fv, tl, tp, tv, rt, rp⟩
      if e ∈ s.edges then s else { s with edges := s.edges ++ [e] }
    else s

/-- Well-formedness of an emitted operation: `create_node` raises before
emitting when the property dict is empty, and a Python dict has pairwise
distinct keys. -/
def wfOp : Op → Prop
  | .node _ props => props ≠ [] ∧ (props.map Prod.fst).Nodup
  | .rel _ _ _ _ _ _ _ _ => True

/-! ### `entity_processors/faculty_processor.FacultyProcessor`

`load_data` catches missing-file and JSON errors and returns `\x7b\x7d`;
the embedding starts from the already-loaded value. `FacultyData.failed`
is that empty dict.  A loaded value is either a list of record dicts or a
dict carrying an `items` / `deduplicated_items` list of fragments. -/

/-- One record of the list-shaped faculty input (`item.get(k, default)`). -/
structure FacultyRecord where
  name : String := ""
  title : String := ""
  department : String := ""
  research_interests : List String := []
  email : String := ""
  phone : String := ""
deriving DecidableEq

/-- One fragment of the dict-shaped input stream. -/
structure Item where
  text : String := ""
  semantic_types : List String := []
deriving DecidableEq

/-- The value `load_data` hands to `extract_faculty_info`. -/
inductive FacultyData where
  | failed : FacultyData
  | fromList (records : List FacultyRecord) : FacultyData
  | fromDict (items : Option (List Item)) (dedup : Option (List Item)) : FacultyData
deriving DecidableEq

/-- Python `if not data:` on the loaded value (`\x7b\x7d` and `[]` are
falsy; any non-empty dict is truthy). -/
def facultyDataFalsy : FacultyData → Bool
  | .failed => true
  | .fromList records => records.isEmpty
  | .fromDict _ _ => false

/-- The reconstructed faculty entity.  `department` is `Option String`
because the dict-shaped walk seeds it with Python `None`. -/
def facultyStripSet : List Char := ['.', ',', ';', ':', '(', ')', '[', ']', '\x7b', '\x7d', '"']

/-- The reconstructed faculty entity. -/
structure Faculty where
  name : String
  title : String
  department : Option String
  research_interests : List String
  email : String
  phone : String
deriving DecidableEq

/-- List-branch conversion (faculty_processor.py lines 57–69). -/
def facultyOfRecord (r : FacultyRecord) : Faculty :=
  ⟨r.name, r.title, some r.department, r.research_interests, r.email, r.phone⟩

/-- Walk state of the dict-shaped branch: entities already pushed, the
currently open entity (aliasing the list's last element in the source),
and the current department.  `faculty_list = done ++ current.toList`. -/
structure FacState where
  done : List Faculty
  current : Option Faculty
  current_department : Option String
deriving DecidableEq

/-- Backfill: set the department of an entity that has none
(faculty_processor.py lines 99–102; `if not faculty['department']`). -/
def backfillFac (d : String) (f : Faculty) : Faculty :=
  if truthyOptStr f.department then f else { f with department := some d }

/-- Fragment is a faculty-name fragment (opens a new entity). -/
def facOpenCond (it : Item) : Bool :=
  it.semantic_types.contains "faculty_name" || it.semantic_types.contains "person_name"

/-- Fragment is a department fragment. -/
def facDeptCond (it : Item) : Bool :=
  it.semantic_types.contains "department" || pyIn "Khoa" it.text || pyIn "Bộ môn" it.text

/-- Fragment updates the open entity's title. -/
def facTitleCond (it : Item) : Bool :=
  it.semantic_types.contains "title" ||
    ["GS", "PGS", "TS", "ThS", "CN"].any (fun t => pyIn t it.text)

/-- Fragment updates the open entity's research interests. -/
def facResearchCond (it : Item) : Bool :=
  it.semantic_types.contains "research_interest" || it.semantic_types.contains "research"

/-- Fragment hits the email branch. -/
def facEmailCond (it : Item) : Bool :=
  it.semantic_types.contains "email" || pyIn "@" it.text

/-- Fragment hits the phone branch. -/
def facPhoneCond (it : Item) : Bool :=
  it.semantic_types.contains "phone" || pyIn "tel" (pyLower it.text) ||
    pyIn "phone" (pyLower it.text)

/-- The email-extraction loop (faculty_processor.py lines 117–121): every
whitespace token containing `@` and `.` overwrites the email in turn, so
the last such token wins. -/
def emailFold (prev : String) (text : String) : String :=
  (pySplitWs text).foldl
    (fun acc w => if pyIn "@" w && pyIn "." w then pyStripChars w facultyStripSet else acc)
    prev

/-- `\+?[\d\s\-\(\)]\x7b7,\x7d` — the phone pattern of the faculty walk. -/
def facPhonePat : Pat :=
  .cat (optPat (.cls (fun c => c == '+')))
    (.rep (.cls (fun c => c.isDigit || c.isWhitespace || "-()".data.contains c)) 7 none true)

/-- One step of the dict-shaped faculty walk (faculty_processor.py lines
78–130), faithful to the if/elif chain. -/
def facultyStep (st : FacState) (it : Item) : FacState :=
  if facOpenCond it then
    { done := st.done ++ st.current.toList,
      current := some ⟨pyTrim it.text, "", st.current_department, [], "", ""⟩,
      current_department := st.current_department }
  else if facDeptCond it then
    let d := pyTrim it.text
    { done := st.done.map (backfillFac d),
      current := st.current.map (backfillFac d),
      current_department := some d }
  else
    match st.current with
    | none => st
    | some cf =>
      if facTitleCond it then
        let cf2 := { cf with title := pyTrim it.text }
        { st with current := some cf2 }
      else if facResearchCond it then
        let cf2 := { cf with research_interests := cf.research_interests ++ [pyTrim it.text] }
        { st with current := some cf2 }
      else if facEmailCond it then
        let em := if pyIn "@" it.text then emailFold cf.email it.text else cf.email
        let cf2 := { cf with email := em }
        { st with current := some cf2 }
      else if facPhoneCond it then
        let ms := pyFindall facPhonePat it.text
        let cf2 := { cf with phone := if ms.isEmpty then cf.phone else pyTrim (ms.headD "") }
        { st with current := some cf2 }
      else st

/-- `FacultyProcessor.extract_faculty_info` (faculty_processor.py lines
44–132). -/
def extract_faculty_info (data : FacultyData) : List Faculty :=
  match data with
  | .failed => []
  | .fromList records => records.map facultyOfRecord
  | .fromDict items dedup =>
    let its := items.getD (dedup.getD [])
    let st := its.foldl facultyStep ⟨[], none, none⟩
    st.done ++ st.current.toList

/-- Queries emitted for one faculty entity (faculty_processor.py lines
153–219).  Every `create_node` call site passes a literally non-empty
property dict, so the `StopIteration` case of `create_node` is
unreachable here (`.toOption.toList` is `[·]`). -/
def facultyOps (f : Faculty) : List Query :=
  if truthyStr f.name then
    (create_node "Faculty"
      (("name", f.name) :: (if truthyStr f.title then [("title", f.title)] else []))).toOption.toList ++
    (if truthyOptStr f.department then
      (create_node "Department" [("name", f.department.getD "")]).toOption.toList ++
      [create_relationship "Faculty" "name" f.name "Department" "name" (f.department.getD "") "BELONGS_TO" [],
       create_relationship "Department" "name" (f.department.getD "") "Faculty" "name" f.name "HAS_MEMBER" []]
     else []) ++
    (f.research_interests.flatMap (fun interest =>
      if truthyStr interest then
        (create_node "ResearchInterest" [("name", interest)]).toOption.toList ++
        [create_relationship "Faculty" "name" f.name "ResearchInterest" "name" interest "INTERESTED_IN" []]
      else [])) ++
    (if truthyStr f.email then
      (create_node "Email" [("address", f.email)]).toOption.toList ++
      [create_relationship "Faculty" "name" f.name "Email" "address" f.email "HAS_EMAIL" []]
     else []) ++
    (if truthyStr f.phone then
      (create_node "PhoneNumber" [("number", f.phone)]).toOption.toList ++
      [create_relationship "Faculty" "name" f.name "PhoneNumber" "number" f.phone "HAS_PHONE" []]
     else [])
  else []

/-- `FacultyProcessor.process` (faculty_processor.py lines 134–221) acting
on the shared builder queue: falsy data returns the queue untouched
(`return self.graph_builder.get_queries()`); otherwise each extracted
entity's queries are appended and the whole queue is returned. -/
def facultyProcess (data : FacultyData) (queue : List Query) : List Query :=
  if facultyDataFalsy data then queue
  else queue ++ (extract_faculty_info data).flatMap facultyOps

/-! ### `entity_processors/course_processor.CourseProcessor` -/

/-- One record of the list-shaped course input. -/
structure CourseRecord where
  code : String := ""
  name : String := ""
  description : String := ""
  credits : String := ""
  department : String := ""
  instructors : List String := []
  prerequisites : List String := []
deriving DecidableEq

/-- The value `load_data` hands to `extract_course_info`. -/
inductive CourseData where
  | failed : CourseData
  | fromList (records : List CourseRecord) : CourseData
  | fromDict (items : Option (List Item)) (dedup : Option (List Item)) : CourseData
deriving DecidableEq

/-- Python `if not data:` on the loaded course value. -/
def courseDataFalsy : CourseData → Bool
  | .failed => true
  | .fromList records => records.isEmpty
  | .fromDict _ _ => false

/-- The reconstructed course entity. -/
structure Course where
  code : String
  name : String
  description : String
  credits : String
  department : Option String
  instructors : List String
  prerequisites : List String
deriving DecidableEq

/-- List-branch conversion (course_processor.py lines 57–70). -/
def courseOfRecord (r : CourseRecord) : Course :=
  ⟨r.code, r.name, r.description, r.credits, some r.department, r.instructors,
   r.prerequisites⟩

/-- Walk state of the dict-shaped course branch
(`course_list = done ++ current.toList`). -/
structure CourseState where
  done : List Course
  current : Option Course
  current_department : Option String
deriving DecidableEq

/-- Backfill a course missing a department (course_processor.py lines
112–115). -/
def backfillCourse (d : String) (c : Course) : Course :=
  if truthyOptStr c.department then c else { c with department := some d }

/-- `[A-Z]\x7b2,\x7d\d\x7b3,\x7d` — course-code search pattern of the walk. -/
def ccPat : Pat :=
  .cat (.rep (.cls Char.isUpper) 2 none true) (.rep (.cls Char.isDigit) 3 none true)

/-- `\d+`. -/
def digitsPat : Pat := plusPat (.cls Char.isDigit)

/-- Fragment opens a new course entity. -/
def courseOpenCond (it : Item) : Bool :=
  it.semantic_types.contains "course_code" || it.semantic_types.contains "course_name"

/-- Fragment is a department fragment (course_processor.py line 110; the
third keyword is the literally corrupted escape `'Bu1ed9 mu00f4n'` of the
source). -/
def courseDeptCond (it : Item) : Bool :=
  it.semantic_types.contains "department" || pyIn "Khoa" it.text ||
    pyIn "Bu1ed9 mu00f4n" it.text

/-- Fragment updates the description. -/
def courseDescCond (it : Item) : Bool :=
  it.semantic_types.contains "course_description" || it.semantic_types.contains "description"

/-- Fragment updates the credits (line 124 keywords, the third again a
corrupted escape). -/
def courseCreditCond (it : Item) : Bool :=
  it.semantic_types.contains "credits" || pyIn "credit" (pyLower it.text) ||
    pyIn "tu00edn chu1ec9" (pyLower it.text)

/-- Fragment updates the instructors. -/
def courseInstrCond (it : Item) : Bool :=
  it.semantic_types.contains "instructor" || pyIn "giu1ea3ng viu00ean" (pyLower it.text) ||
    pyIn "lecturer" (pyLower it.text)

/-- Fragment updates the prerequisites. -/
def coursePrereqCond (it : Item) : Bool :=
  it.semantic_types.contains "prerequisite" ||
    pyIn "hu1ecdc phu1ea7n tiu00ean quyu1ebft" (pyLower it.text)

/-- The entity opened by a course fragment (course_processor.py lines
86–107): the code is the first `[A-Z]\x7b2,\x7d\d\x7b3,\x7d` match of the
text, and when found it is deleted from the (stripped) name. -/
def openCourse (dept : Option String) (text : String) : Course :=
  match pySearch ccPat text with
  | some code => ⟨code, pyTrim (pySubEmpty ccPat (pyTrim text)), "", "", dept, [], []⟩
  | none => ⟨"", pyTrim text, "", "", dept, [], []⟩

/-- One step of the dict-shaped course walk (course_processor.py lines
79–143). -/
def courseStep (st : CourseState) (it : Item) : CourseState :=
  if courseOpenCond it then
    { done := st.done ++ st.current.toList,
      current := some (openCourse st.current_department it.text),
      current_department := st.current_department }
  else if courseDeptCond it then
    let d := pyTrim it.text
    { done := st.done.map (backfillCourse d),
      current := st.current.map (backfillCourse d),
      current_department := some d }
  else
    match st.current with
    | none => st
    | some cc =>
      if courseDescCond it then
        let cc2 := { cc with description := pyTrim it.text }
        { st with current := some cc2 }
      else if courseCreditCond it then
        let cr := (pySearch digitsPat it.text).getD cc.credits
        let cc2 := { cc with credits := cr }
        { st with current := some cc2 }
      else if courseInstrCond it then
        let itext := pyTrim (pyRemoveAll "Instructor:" (pyRemoveAll "Giu1ea3ng viu00ean:" it.text))
        let cc2 := { cc with instructors :=
          cc.instructors ++ (pySplitChar ',' itext).map pyTrim }
        { st with current := some cc2 }
      else if coursePrereqCond it then
        let cc2 := { cc with prerequisites := cc.prerequisites ++ pyFindall ccPat it.text }
        { st with current := some cc2 }
      else st

/-- `CourseProcessor.extract_course_info` (course_processor.py lines
44–145). -/
def extract_course_info (data : CourseData) : List Course :=
  match data with
  | .failed => []
  | .fromList records => records.map courseOfRecord
  | .fromDict items dedup =>
    let its := items.getD (dedup.getD [])
    let st := its.foldl courseStep ⟨[], none, none⟩
    st.done ++ st.current.toList

/-- Queries emitted for one course entity (course_processor.py lines
166–237): the identifier is the code, falling back to the name. -/
def courseOps (c : Course) : List Query :=
  let ident := if truthyStr c.code then c.code else c.name
  if truthyStr ident then
    (create_node "Course"
      (("name", ident) ::
        ((if truthyStr c.name && truthyStr c.code then [("title", c.name)] else []) ++
         (if truthyStr c.description then [("description", c.description)] else []) ++
         (if truthyStr c.credits then [("credits", c.credits)] else [])))).toOption.toList ++
    (if truthyOptStr c.department then
      (create_node "Department" [("name", c.department.getD "")]).toOption.toList ++
      [create_relationship "Course" "name" ident "Department" "name" (c.department.getD "") "BELONGS_TO" [],
       create_relationship "Department" "name" (c.department.getD "") "Course" "name" ident "OFFERS_COURSE" []]
     else []) ++
    (c.instructors.flatMap (fun instructor =>
      if truthyStr instructor then
        (create_node "Faculty" [("name", instructor)]).toOption.toList ++
        [create_relationship "Faculty" "name" instructor "Course" "name" ident "TEACHES" [],
         create_relationship "Course" "name" ident "Faculty" "name" instructor "TAUGHT_BY" []]
      else [])) ++
    (c.prerequisites.flatMap (fun prereq =>
      if truthyStr prereq then
        (create_node "Course" [("name", prereq)]).toOption.toList ++
        [create_relationship "Course" "name" prereq "Course" "name" ident "IS_PREREQUISITE_FOR" []]
      else []))
  else []

/-- `CourseProcessor.process` (course_processor.py lines 147–239) on the
shared builder queue. -/
def courseProcess (data : CourseData) (queue : List Query) : List Query :=
  if courseDataFalsy data then queue
  else queue ++ (extract_course_info data).flatMap courseOps

/-! ### `knowledge_graph.KnowledgeGraph` — the orchestrator

All four entity processors are constructed over the same `GraphBuilder`,
so they share one query queue.  Each `process_<domain>` call stores the
processor's return value — the whole shared queue — into `all_queries`
via `extend`, and also returns it. -/

/-- Orchestrator state: the combined batch and the shared builder queue. -/
structure KG where
  all_queries : List Query
  builder : List Query
deriving DecidableEq

/-- `KnowledgeGraph.process_faculty_data` (knowledge_graph.py lines
61–78): run the processor on the shared queue, extend `all_queries` with
its return value, and return it. -/
def kgProcessFaculty (kg : KG) (data : FacultyData) : KG × List Query :=
  let q := facultyProcess data kg.builder
  (⟨kg.all_queries ++ q, q⟩, q)

/-- `KnowledgeGraph.process_course_data` (knowledge_graph.py lines
80–97). -/
def kgProcessCourse (kg : KG) (data : CourseData) : KG × List Query :=
  let q := courseProcess data kg.builder
  (⟨kg.all_queries ++ q, q⟩, q)

/-- `KnowledgeGraph.process_contact_data` for a contact input file that is
missing or malformed: `load_data` returns `\x7b\x7d`, the processor's
`if not data:` path returns `graph_builder.get_queries()` unchanged
(contact_processor.py lines 55–57), and the orchestrator extends
`all_queries` with that return value. -/
def kgProcessContactFailed (kg : KG) : KG × List Query :=
  (⟨kg.all_queries ++ kg.builder, kg.builder⟩, kg.builder)

/-- The default University node that `GeneralProcessor.process` queues even
when its input file is missing (general_processor.py lines 159–162). -/
def defaultUniversityDelta : List Query :=
  (create_node "University" [("name", "University of Information Technology")]).toOption.toList

/-- `KnowledgeGraph.process_general_data` for a general input file that is
missing or malformed: the processor queues the default University node and
then returns the whole shared queue (general_processor.py lines 159–162). -/
def kgProcessGeneralFailed (kg : KG) : KG × List Query :=
  let q := kg.builder ++ defaultUniversityDelta
  (⟨kg.all_queries ++ q, q⟩, q)

/-- A run over the four domains in order (faculty, course, contact,
general), the last two with missing/malformed input files. -/
def runFour (data_f : FacultyData) (data_c : CourseData) : KG :=
  let kg0 : KG := ⟨[], []⟩
  let kg1 := (kgProcessFaculty kg0 data_f).1
  let kg2 := (kgProcessCourse kg1 data_c).1
  let kg3 := (kgProcessContactFailed kg2).1
  (kgProcessGeneralFailed kg3).1

/-- The operations one faculty input actually contributes (appends) to
the shared queue. -/
def facultyDelta (data : FacultyData) : List Query :=
  if facultyDataFalsy data then [] else (extract_faculty_info data).flatMap facultyOps

/-- The operations one course input actually contributes to the shared
queue. -/
def courseDelta (data : CourseData) : List Query :=
  if courseDataFalsy data then [] else (extract_course_info data).flatMap courseOps

/-! ### Lemmas about the store's property maps -/

theorem getProp_setProp_ne (p : List (String × String)) (k' v key : String)
    (h : k' ≠ key) : getProp (setProp p k' v) key = getProp p key := by
  induction p with
  | nil => simp [setProp, getProp, h]
  | cons a rest ih =>
    obtain ⟨ak, av⟩ := a
    by_cases hak : ak = k'
    · subst hak
      simp [setProp, getProp, h]
    · simp [setProp, getProp, hak]
      by_cases hkey : ak = key
      · simp [hkey, getProp]
      · simp [getProp, hkey, ih]

theorem setProp_idem (p : List (String × String)) (k v : String) :
    setProp (setProp p k v) k v = setProp p k v := by
  induction p with
  | nil => simp [setProp]
  | cons a rest ih =>
    obtain ⟨ak, av⟩ := a
    by_cases hak : ak = k
    · simp [setProp, hak]
    · simp [setProp, hak, ih]

theorem getProp_setProp_same (p : List (String × String)) (k v : String) :
    getProp (setProp p k v) k = some v := by
  induction p with
  | nil => simp [setProp, getProp]
  | cons a rest ih =>
    obtain ⟨ak, av⟩ := a
    by_cases hak : ak = k
    · simp [setProp, getProp, hak]
    · simp [setProp, getProp, hak, ih]

theorem setProp_getProp_eq (p : List (String × String)) (k v : String)
    (h : getProp p k = some v) : setProp p k v = p := by
  induction p with
  | nil => simp [getProp] at h
  | cons a rest ih =>
    obtain ⟨ak, av⟩ := a
    by_cases hak : ak = k
    · simp [getProp, hak] at h
      simp [setProp, hak, h]
    · simp [getProp, hak] at h
      simp [setProp, hak, ih h]

theorem getProp_setProps_ne (u : List (String × String)) (p : List (String × String))
    (key : String) (h : ∀ kv ∈ u, kv.1 ≠ key) :
    getProp (setProps p u) key = getProp p key := by
  induction u generalizing p with
  | nil => simp [setProps]
  | cons a rest ih =>
    obtain ⟨ak, av⟩ := a
    have hak : ak ≠ key := h (ak, av) (by simp)
    have hrest : ∀ kv ∈ rest, kv.1 ≠ key := fun kv hkv => h kv (by simp [hkv])
    simp only [setProps, List.foldl_cons]
    have := ih (setProp p ak av) hrest
    simp only [setProps] at this
    rw [this, getProp_setProp_ne _ _ _ _ hak]

theorem setProps_idem (u : List (String × String)) (p : List (String × String))
    (h : (u.map Prod.fst).Nodup) :
    setProps (setProps p u) u = setProps p u := by
  induction u generalizing p with
  | nil => simp [setProps]
  | cons a rest ih =>
    obtain ⟨ak, av⟩ := a
    simp only [List.map_cons, List.nodup_cons, List.mem_map] at h
    obtain ⟨hnot, hnd⟩ := h
    have hmem : ∀ kv ∈ rest, kv.1 ≠ ak := by
      intro kv hkv heq
      exact hnot ⟨kv, hkv, heq⟩
    have hQ : getProp (setProps (setProp p ak av) rest) ak = some av := by
      rw [getProp_setProps_ne rest _ ak hmem, getProp_setProp_same]
    have heq : setProp (setProps (setProp p ak av) rest) ak av =
        setProps (setProp p ak av) rest := setProp_getProp_eq _ _ _ hQ
    have hih := ih (setProp p ak av) hnd
    simp only [setProps, List.foldl_cons] at heq hih ⊢
    rw [heq]
    exact hih

theorem nodeMatches_updNode (label pk v : String) (rest : List (String × String))
    (h : ∀ kv ∈ rest, kv.1 ≠ pk) (n : GNode) :
    nodeMatches (updNode rest n) label pk v = nodeMatches n label pk v := by
  have hg := getProp_setProps_ne rest n.props pk h
  simp [updNode, nodeMatches, hg]

theorem nodeMatches_stepNode (label pk v : String) (rest : List (String × String))
    (h : ∀ kv ∈ rest, kv.1 ≠ pk) (n : GNode) :
    nodeMatches (stepNode label pk v rest n) label pk v = nodeMatches n label pk v := by
  by_cases hn : nodeMatches n label pk v
  · simp [stepNode, hn, nodeMatches_updNode label pk v rest h n]
  · simp [stepNode, hn]

theorem stepNode_stepNode (label pk v : String) (rest : List (String × String))
    (h : ∀ kv ∈ rest, kv.1 ≠ pk) (hnd : (rest.map Prod.fst).Nodup) (n : GNode) :
    stepNode label pk v rest (stepNode label pk v rest n) = stepNode label pk v rest n := by
  by_cases hn : nodeMatches n label pk v
  · have h1 : stepNode label pk v rest n = updNode rest n := by simp [stepNode, hn]
    have h2 : nodeMatches (updNode rest n) label pk v = true := by
      rw [nodeMatches_updNode label pk v rest h n]; exact hn
    rw [h1]
    simp only [stepNode, h2, if_true]
    simp only [updNode]
    rw [setProps_idem rest n.props hnd]
  · simp [stepNode, hn]

theorem applyNode_idem (label pk v : String) (tl : List (String × String)) (s : Store)
    (hnd : ((((pk, v) :: tl)).map Prod.fst).Nodup) :
    applyOp (applyOp s (.node label ((pk, v) :: tl))) (.node label ((pk, v) :: tl)) =
      applyOp s (.node label ((pk, v) :: tl)) := by
  have hrest0 : ∀ kv ∈ List.filter (fun kv => kv.1 != pk) ((pk, v) :: tl), kv.1 ≠ pk := by
    intro kv hkv
    have := List.of_mem_filter hkv
    simpa using this
  have hrnd0 : ((List.filter (fun kv => kv.1 != pk) ((pk, v) :: tl)).map Prod.fst).Nodup := by
    exact List.Nodup.sublist (List.Sublist.map Prod.fst (List.filter_sublist _)) hnd
  simp only [applyOp]
  set R := List.filter (fun kv => kv.1 != pk) ((pk, v) :: tl) with hR
  have hrestR : ∀ kv ∈ R, kv.1 ≠ pk := by rw [hR]; exact hrest0
  have hrndR : (R.map Prod.fst).Nodup := by rw [hR]; exact hrnd0
  by_cases hA : s.nodes.any (fun n => nodeMatches n label pk v)
  · simp only [hA, if_true]
    have hmapany : (s.nodes.map (stepNode label pk v R)).any
        (fun n => nodeMatches n label pk v) = true := by
      rw [List.any_map]
      have hfeq : ((fun n => nodeMatches n label pk v) ∘ stepNode label pk v R) =
          (fun n => nodeMatches n label pk v) := by
        funext n
        exact nodeMatches_stepNode label pk v R hrestR n
      rw [hfeq, hA]
    simp only [hmapany, if_true]
    congr 1
    rw [List.map_map]
    apply List.map_congr_left
    intro n _
    exact stepNode_stepNode label pk v R hrestR hrndR n
  · simp only [hA, Bool.false_eq_true, if_false]
    have hnew : nodeMatches ⟨label, setProps [(pk, v)] R⟩ label pk v = true := by
      simp only [nodeMatches]
      rw [getProp_setProps_ne R _ _ hrestR]
      simp [getProp]
    have happany : ((s.nodes ++ [(⟨label, setProps [(pk, v)] R⟩ : GNode)]).any
        (fun n => nodeMatches n label pk v)) = true := by
      rw [List.any_append]
      simp only [List.any_cons, List.any_nil, Bool.or_false]
      rw [hnew, Bool.or_true]
    simp only [happany, if_true]
    congr 1
    rw [List.map_append]
    have hall : ∀ n ∈ s.nodes, nodeMatches n label pk v = false := by
      intro n hn
      have := List.any_eq_false.mp (Bool.eq_false_iff.mpr hA) n hn
      simpa using this
    have hleft : s.nodes.map (stepNode label pk v R) = s.nodes := by
      rw [show s.nodes = s.nodes.map id from by simp]
      rw [List.map_map]
      apply List.map_congr_left
      intro n hn
      have hfn : nodeMatches n label pk v = false := hall n (by simpa using hn)
      simp [stepNode, hfn]
    rw [hleft]
    congr 1
    simp only [List.map_cons, List.map_nil, stepNode, hnew, if_true, updNode]
    rw [setProps_idem _ _ hrndR]

theorem applyRel_idem (fl fp fv tl tp tv rt : String) (rp : List (String × String))
    (s : Store) :
    applyOp (applyOp s (.rel fl fp fv tl tp tv rt rp)) (.rel fl fp fv tl tp tv rt rp) =
      applyOp s (.rel fl fp fv tl tp tv rt rp) := by
  simp only [applyOp]
  by_cases hc : ((s.nodes.any (fun n => nodeMatches n fl fp fv)) &&
      (s.nodes.any (fun n => nodeMatches n tl tp tv))) = true
  · simp only [hc, if_true]
    by_cases he : (⟨fl, fp, fv, tl, tp, tv, rt, rp⟩ : GEdge) ∈ s.edges
    · simp [he, hc]
    · simp only [he, if_false]
      simp only [List.mem_append, List.mem_singleton]
      simp [hc, he]
  · simp only [hc, if_false]
    simp [hc]

/-- C1: every node-upsert operation produced by `create_node` and every
relationship-upsert operation produced by `create_relationship` is
idempotent against the modelled store: applying it twice yields the same
store as applying it once.  Node upserts match-or-create by the first
property key then SET the remaining properties; relationship upserts merge
(not create) the edge.  Well-formedness records that `create_node` raises
before emitting an operation with an empty dict and that Python dict keys
are distinct. -/
theorem C1_operation_idempotent (op : Op) (s : Store) (h : wfOp op) :
    applyOp (applyOp s op) op = applyOp s op := by
  cases op with
  | node label props =>
    obtain ⟨hne, hnd⟩ := h
    cases props with
    | nil => exact absurd rfl hne
    | cons hd tl =>
      obtain ⟨pk, v⟩ := hd
      exact applyNode_idem label pk v tl s hnd
  | rel fl fp fv tl tp tv rt rp => exact applyRel_idem fl fp fv tl tp tv rt rp s

/-- Witness for C1 at a concrete node upsert, a concrete relationship
upsert, and a concrete store. -/
theorem C1_operation_idempotent_witness :
    wfOp (.node "Faculty" [("name", "A"), ("title", "T")]) ∧
    applyOp (applyOp ⟨[], []⟩ (.node "Faculty" [("name", "A"), ("title", "T")]))
        (.node "Faculty" [("name", "A"), ("title", "T")]) =
      applyOp ⟨[], []⟩ (.node "Faculty" [("name", "A"), ("title", "T")]) ∧
    applyOp
        (applyOp ⟨[⟨"Faculty", [("name", "A")]⟩, ⟨"Department", [("name", "CS")]⟩], []⟩
          (.rel "Faculty" "name" "A" "Department" "name" "CS" "BELONGS_TO" []))
        (.rel "Faculty" "name" "A" "Department" "name" "CS" "BELONGS_TO" []) =
      applyOp ⟨[⟨"Faculty", [("name", "A")]⟩, ⟨"Department", [("name", "CS")]⟩], []⟩
        (.rel "Faculty" "name" "A" "Department" "name" "CS" "BELONGS_TO" []) := by
  refine ⟨⟨by decide, by decide⟩, ?_, ?_⟩
  · exact C1_operation_idempotent (.node "Faculty" [("name", "A"), ("title", "T")]) ⟨[], []⟩
      ⟨by decide, by decide⟩
  · exact C1_operation_idempotent
      (.rel "Faculty" "name" "A" "Department" "name" "CS" "BELONGS_TO" [])
      ⟨[⟨"Faculty", [("name", "A")]⟩, ⟨"Department", [("name", "CS")]⟩], []⟩ trivial

/-- C10: `GraphBuilder.execute` always leaves the queue empty afterwards —
also when some or all individual queries fail (the connector's per-query
failures are only counted, never retained) — and returns the number of
successfully executed queries; on an empty queue it returns 0 without
invoking the connector. -/
theorem C10_execute_clears_queue (c : Connector) (queue : List Query) :
    (GraphBuilder.execute c queue).2.1 = [] ∧
    (queue = [] → GraphBuilder.execute c queue = (0, [], false)) ∧
    (queue ≠ [] → (GraphBuilder.execute c queue).1 = execute_queries c queue ∧
      (GraphBuilder.execute c queue).2.2 = true) ∧
    (c.hasDriver = true → queue ≠ [] →
      (GraphBuilder.execute c queue).1 = queue.countP (fun q => c.ok q)) := by
  by_cases hq : queue = []
  · subst hq
    refine ⟨rfl, fun _ => rfl, fun hne => absurd rfl hne, fun _ hne => absurd rfl hne⟩
  · have hne : queue.isEmpty = false := by
      cases queue with
      | nil => exact absurd rfl hq
      | cons a l => rfl
    refine ⟨?_, fun heq => absurd heq hq, fun _ => ⟨?_, ?_⟩, fun hd _ => ?_⟩
    · simp [GraphBuilder.execute, hne]
    · simp [GraphBuilder.execute, hne]
    · simp [GraphBuilder.execute, hne]
    · simp [GraphBuilder.execute, execute_queries, hne, hd]

/-- Witness for C10: a driver that fails every query still clears the
one-element queue and reports zero successes. -/
theorem C10_execute_clears_queue_witness :
    (GraphBuilder.execute ⟨true, fun _ => false⟩ [⟨"q", []⟩]).2.1 = [] ∧
    (GraphBuilder.execute ⟨true, fun _ => false⟩ [⟨"q", []⟩]).1 =
      List.countP (fun q => (⟨true, fun _ => false⟩ : Connector).ok q) [⟨"q", []⟩] :=
  ⟨(C10_execute_clears_queue ⟨true, fun _ => false⟩ [⟨"q", []⟩]).1,
   (C10_execute_clears_queue ⟨true, fun _ => false⟩ [⟨"q", []⟩]).2.2.2 rfl (by decide)⟩

/-- C5 (amended): `create_node` with an empty properties mapping raises
`StopIteration` (from `next(iter(properties.keys()))`), before any
operation is appended to the queue. -/
theorem C5_empty_properties_stop_iteration (label : String) :
    create_node label [] = Except.error PyErr.stopIteration := rfl

/-- C5 counterexample: the error raised on an empty property dict is
`StopIteration`, not the `InvalidEntity` error the claim names — an
unrelated exception escaping `create_node`. -/
theorem C5_empty_properties_counterexample :
    create_node "Faculty" [] = Except.error PyErr.stopIteration ∧
    PyErr.stopIteration ≠ PyErr.invalidEntity :=
  ⟨rfl, by decide⟩

set_option maxRecDepth 40000

/-- C4 counterexample: on the claim's input the extractor finds no phone
number at all — the phone pattern is Vietnam-locale (`\+84` or `0`
followed by nine digits), so `(555) 123-4567` does not match and the
`phone_numbers` key is dropped from the result. -/
theorem C4_pattern_example_counterexample :
    (extract_regex_patterns "Contact Dr. Smith at john.smith@university.edu or call (555) 123-4567. Course CS101 meets in Room 204.").lookup
      "phone_numbers" = none := by
  decide

/-- C4 (amended): on the claim's input the extractor returns emails
`["john.smith@university.edu"]` and course codes containing `"CS101"`,
but no `phone_numbers` entry (zero matches). -/
theorem C4_pattern_extraction_example :
    (extract_regex_patterns "Contact Dr. Smith at john.smith@university.edu or call (555) 123-4567. Course CS101 meets in Room 204.").lookup
      "emails" = some ["john.smith@university.edu"] ∧
    "CS101" ∈ ((extract_regex_patterns "Contact Dr. Smith at john.smith@university.edu or call (555) 123-4567. Course CS101 meets in Room 204.").lookup
      "course_codes").getD [] ∧
    (extract_regex_patterns "Contact Dr. Smith at john.smith@university.edu or call (555) 123-4567. Course CS101 meets in Room 204.").lookup
      "phone_numbers" = none := by
  refine ⟨by decide, by decide, by decide⟩

/-- C8 (amended): the classifier always returns a non-empty list, and when
no classification rule fires the result is exactly `["general_content"]`.
(The result is a list, not a set: a tag can occur twice when both a text
rule and an attribute rule for it fire.) -/
theorem C8_classification_totality (e : ElementData) :
    classify_element_semantic_type e ≠ [] ∧
    (condFacultyText e = false → condFacultyAttr e = false → condDept e = false →
     condCourseRegex e = false → condCourseText e = false → condContact e = false →
     condNav e = false → condContent e = false → condPageStruct e = false →
     classify_element_semantic_type e = ["general_content"]) := by
  constructor
  · unfold classify_element_semantic_type
    by_cases h : (classifyTags e).isEmpty
    · simp [h]
    · simp only [h, Bool.false_eq_true, if_false]
      intro hnil
      rw [hnil] at h
      exact h rfl
  · intro h1 h2 h3 h4 h5 h6 h7 h8 h9
    unfold classify_element_semantic_type classifyTags
    simp [h1, h2, h3, h4, h5, h6, h7, h8, h9]

/-- Witness for C8 at a fragment on which no rule fires. -/
theorem C8_classification_totality_witness :
    classify_element_semantic_type ⟨"hello", [], none, []⟩ ≠ [] ∧
    classify_element_semantic_type ⟨"hello", [], none, []⟩ = ["general_content"] :=
  ⟨(C8_classification_totality ⟨"hello", [], none, []⟩).1,
   (C8_classification_totality ⟨"hello", [], none, []⟩).2 (by decide) (by decide) (by decide)
     (by decide) (by decide) (by decide) (by decide) (by decide) (by decide)⟩

/-- C8 counterexample: a fragment whose text contains a faculty keyword and
whose html class contains one as well gets the `faculty_member` tag twice —
the result is not a set and a tag can occur more than once. -/
theorem C8_classification_counterexample :
    classify_element_semantic_type ⟨"giảng viên nguyễn", ["giảng viên"], none, []⟩ =
      ["faculty_member", "faculty_member"] ∧
    ¬ (["faculty_member", "faculty_member"] : List String).Nodup := by
  refine ⟨by decide, by decide⟩

/-- A left fold that overwrites an accumulator whenever a predicate holds
computes the image of the last matching element (or keeps the start
value). -/
theorem foldl_overwrite (cond : String → Bool) (f : String → String) (ws : List String)
    (prev : String) :
    ws.foldl (fun acc w => if cond w then f w else acc) prev =
      (((ws.filter cond).getLast?).map f).getD prev := by
  induction ws generalizing prev with
  | nil => simp
  | cons w ws ih =>
    by_cases hw : cond w
    · rw [List.foldl_cons, if_pos hw, List.filter_cons_of_pos hw, ih (f w)]
      cases hfl : ws.filter cond with
      | nil => simp [hfl]
      | cons y ys =>
        rw [List.getLast?_cons_cons]
        cases hz : (y :: ys).getLast? with
        | none => simp at hz
        | some z => simp [hz]
    · rw [List.foldl_cons, if_neg hw, List.filter_cons_of_neg hw]
      exact ih prev

/-- The email loop stores the stripped form of the LAST whitespace token
containing `@` and `.` (each matching token overwrites the previous). -/
theorem emailFold_eq_last (prev text : String) :
    emailFold prev text =
      ((((pySplitWs text).filter (fun w => pyIn "@" w && pyIn "." w)).getLast?).map
        (fun w => pyStripChars w facultyStripSet)).getD prev := by
  unfold emailFold
  exact foldl_overwrite _ _ _ _

/-- C9 (amended): when a fragment reaches the faculty walk's email branch,
the email stored on the open entity is the stripped form of the last
whitespace-separated token of the fragment's text containing both `@` and
`.` (or the previous email when no token matches) — the loop overwrites on
every match, so with two or more matching tokens the last one, not the
first, is stored. -/
theorem C9_email_last_token (st : FacState) (cf : Faculty) (it : Item)
    (hcur : st.current = some cf)
    (h1 : facOpenCond it = false) (h2 : facDeptCond it = false)
    (h3 : facTitleCond it = false) (h4 : facResearchCond it = false)
    (h5 : pyIn "@" it.text = true) :
    (facultyStep st it).current = some { cf with email :=
      ((((pySplitWs it.text).filter (fun w => pyIn "@" w && pyIn "." w)).getLast?).map
        (fun w => pyStripChars w facultyStripSet)).getD cf.email } := by
  have hemail : facEmailCond it = true := by
    unfold facEmailCond
    rw [h5]
    simp
  simp only [facultyStep, h1, h2, h3, h4, hemail, h5, hcur, Bool.false_eq_true, if_false,
    if_true]
  rw [emailFold_eq_last]

/-- Witness for C9 at a fragment with two email-shaped tokens. -/
theorem C9_email_last_token_witness :
    (facultyStep ⟨[], some ⟨"Alice", "", none, [], "", ""⟩, none⟩
      ⟨"a@b.c z@y.x", []⟩).current =
      some ⟨"Alice", "", none, [],
        ((((pySplitWs "a@b.c z@y.x").filter (fun w => pyIn "@" w && pyIn "." w)).getLast?).map
          (fun w => pyStripChars w facultyStripSet)).getD "", ""⟩ :=
  C9_email_last_token ⟨[], some ⟨"Alice", "", none, [], "", ""⟩, none⟩
    ⟨"Alice", "", none, [], "", ""⟩ ⟨"a@b.c z@y.x", []⟩ rfl (by decide) (by decide)
    (by decide) (by decide) (by decide)

/-- C9 counterexample: a faculty fragment whose text holds the tokens
`a@b.c` and `z@y.x` ends with email `z@y.x` — the later token, not the
first one, is stored. -/
theorem C9_email_counterexample :
    (extract_faculty_info (.fromDict (some
      [⟨"Alice", ["faculty_name"]⟩, ⟨"a@b.c z@y.x", []⟩]) none)).map (fun f => f.email) =
      ["z@y.x"] ∧ ("z@y.x" : String) ≠ "a@b.c" :=
  ⟨by decide, by decide⟩

/-- C7: a department (context) fragment retroactively backfills the
department of every already-reconstructed entity that has none — all of
them, not just the most recent — and every entity opened afterwards is
pre-seeded with the current department; on the course walk, the faculty
walk, and the spec's three-fragment example (both course entities end with
department "CS"). -/
theorem C7_department_backfill :
    (∀ (st : CourseState) (it : Item), courseOpenCond it = false →
      courseDeptCond it = true →
      courseStep st it = ⟨st.done.map (backfillCourse (pyTrim it.text)),
        st.current.map (backfillCourse (pyTrim it.text)), some (pyTrim it.text)⟩) ∧
    (∀ (st : CourseState) (it : Item), courseOpenCond it = true →
      (courseStep st it).done = st.done ++ st.current.toList ∧
      (courseStep st it).current = some (openCourse st.current_department it.text) ∧
      (openCourse st.current_department it.text).department = st.current_department) ∧
    (∀ (st : FacState) (it : Item), facOpenCond it = false → facDeptCond it = true →
      facultyStep st it = ⟨st.done.map (backfillFac (pyTrim it.text)),
        st.current.map (backfillFac (pyTrim it.text)), some (pyTrim it.text)⟩) ∧
    (extract_course_info (.fromDict (some
      [⟨"Intro", ["course_name"]⟩, ⟨"CS", ["department"]⟩, ⟨"Algo", ["course_name"]⟩])
      none)).map (fun c => c.department) = [some "CS", some "CS"] := by
  refine ⟨?_, ?_, ?_, by decide⟩
  · intro st it h1 h2
    simp [courseStep, h1, h2]
  · intro st it h1
    refine ⟨by simp [courseStep, h1], by simp [courseStep, h1], ?_⟩
    unfold openCourse
    cases hs : pySearch ccPat it.text <;> simp
  · intro st it h1 h2
    simp [facultyStep, h1, h2]

/-- Witness for C7: a concrete department fragment backfills both a closed
and the open course entity, and a course fragment opened under a current
department is pre-seeded with it. -/
theorem C7_department_backfill_witness :
    courseStep ⟨[⟨"", "Intro", "", "", none, [], []⟩], some ⟨"", "Algo", "", "", none, [], []⟩,
        none⟩ ⟨"CS", ["department"]⟩ =
      ⟨[⟨"", "Intro", "", "", some "CS", [], []⟩], some ⟨"", "Algo", "", "", some "CS", [], []⟩,
        some "CS"⟩ ∧
    (openCourse (some "CS") "Algo").department = some "CS" := by
  constructor
  · have h := (C7_department_backfill.1)
      ⟨[⟨"", "Intro", "", "", none, [], []⟩], some ⟨"", "Algo", "", "", none, [], []⟩, none⟩
      ⟨"CS", ["department"]⟩ (by decide) (by decide)
    rw [h]
    decide
  · exact ((C7_department_backfill.2.1)
      ⟨[], some ⟨"", "Algo", "", "", none, [], []⟩, some "CS"⟩
      ⟨"Algo", ["course_name"]⟩ (by decide)).2.2

/-- `FacultyProcessor.process` always returns the prior queue followed by
the operations this input contributes (nothing for falsy data). -/
theorem facultyProcess_delta (data : FacultyData) (queue : List Query) :
    facultyProcess data queue = queue ++ facultyDelta data := by
  unfold facultyProcess facultyDelta
  by_cases h : facultyDataFalsy data <;> simp [h]

/-- `CourseProcessor.process` always returns the prior queue followed by
the operations this input contributes. -/
theorem courseProcess_delta (data : CourseData) (queue : List Query) :
    courseProcess data queue = queue ++ courseDelta data := by
  unfold courseProcess courseDelta
  by_cases h : courseDataFalsy data <;> simp [h]

/-- C2 (amended): because every processor returns the entire shared
builder queue and the orchestrator extends `all_queries` with that return
value, the combined batch is the concatenation of the successive queue
snapshots, not of the per-domain contributions: with faculty contributing
`f`, course `c`, contact failing (no contribution) and general failing
(contributing the default University upsert `u`), `get_all_queries()` is
`f ++ (f ++ c) ++ (f ++ c) ++ (f ++ c ++ u)` — operations of earlier
domains recur once per later domain. -/
theorem C2_combined_batch_snapshots (fd : FacultyData) (cd : CourseData) :
    (runFour fd cd).all_queries =
      facultyDelta fd ++ (facultyDelta fd ++ courseDelta cd) ++
        (facultyDelta fd ++ courseDelta cd) ++
        (facultyDelta fd ++ courseDelta cd ++ defaultUniversityDelta) := by
  unfold runFour kgProcessFaculty kgProcessCourse kgProcessContactFailed
    kgProcessGeneralFailed
  simp [facultyProcess_delta, courseProcess_delta]

/-- C2 counterexample: one faculty record emits one operation, the other
three domains' inputs fail; each domain is processed once in order, yet
the combined batch holds five operations while the concatenation of the
per-domain emissions (faculty's one plus general's default University
upsert) holds two — the faculty operation appears four times instead of
once. -/
theorem C2_combined_batch_counterexample :
    ((runFour (.fromList [{ name := "A" }]) .failed).all_queries).length = 5 ∧
    (facultyDelta (.fromList [{ name := "A" }]) ++ courseDelta .failed ++ ([] : List Query) ++
      defaultUniversityDelta).length = 2 ∧
    (runFour (.fromList [{ name := "A" }]) .failed).all_queries ≠
      facultyDelta (.fromList [{ name := "A" }]) ++ courseDelta .failed ++ ([] : List Query) ++
        defaultUniversityDelta := by
  refine ⟨by decide, by decide, by decide⟩

/-- C6 (amended): a course-domain input that is missing or malformed
contributes no new operations to the shared builder queue and the
remaining domains still run and contribute theirs; but the
`process_course_data` call does not return an empty list — it returns the
entire current shared queue, which the orchestrator appends to the
combined batch again (duplicating earlier domains' operations). -/
theorem C6_failed_domain (kg : KG) (data : CourseData)
    (h : courseDataFalsy data = true) :
    (kgProcessCourse kg data).1.builder = kg.builder ∧
    (kgProcessCourse kg data).2 = kg.builder ∧
    (kgProcessCourse kg data).1.all_queries = kg.all_queries ++ kg.builder ∧
    (∀ fd : FacultyData, (kgProcessFaculty (kgProcessCourse kg data).1 fd).1.builder =
      kg.builder ++ facultyDelta fd) := by
  refine ⟨?_, ?_, ?_, ?_⟩
  · simp [kgProcessCourse, courseProcess, h]
  · simp [kgProcessCourse, courseProcess, h]
  · simp [kgProcessCourse, courseProcess, h]
  · intro fd
    simp [kgProcessCourse, kgProcessFaculty, courseProcess, h, facultyProcess_delta]

/-- Witness for C6 at a one-operation prior state with a missing course
file, followed by a successful faculty domain. -/
theorem C6_failed_domain_witness :
    (kgProcessCourse ⟨[⟨"q", []⟩], [⟨"q", []⟩]⟩ .failed).1.builder = [⟨"q", []⟩] ∧
    (kgProcessCourse ⟨[⟨"q", []⟩], [⟨"q", []⟩]⟩ .failed).2 = [⟨"q", []⟩] ∧
    (kgProcessFaculty (kgProcessCourse ⟨[⟨"q", []⟩], [⟨"q", []⟩]⟩ .failed).1
      (.fromList [{ name := "A" }])).1.builder =
      [⟨"q", []⟩] ++ facultyDelta (.fromList [{ name := "A" }]) :=
  ⟨(C6_failed_domain ⟨[⟨"q", []⟩], [⟨"q", []⟩]⟩ .failed rfl).1,
   (C6_failed_domain ⟨[⟨"q", []⟩], [⟨"q", []⟩]⟩ .failed rfl).2.1,
   (C6_failed_domain ⟨[⟨"q", []⟩], [⟨"q", []⟩]⟩ .failed rfl).2.2.2
     (.fromList [{ name := "A" }])⟩

/-- C6 counterexample: after the faculty domain queued one operation, a
failed course domain's `process` call returns that one-element queue, not
the empty list the claim requires, and the orchestrator adds it to the
combined batch again. -/
theorem C6_failed_domain_counterexample :
    (kgProcessCourse (kgProcessFaculty ⟨[], []⟩ (.fromList [{ name := "A" }])).1 .failed).2 ≠
      ([] : List Query) ∧
    ((kgProcessCourse (kgProcessFaculty ⟨[], []⟩
      (.fromList [{ name := "A" }])).1 .failed).2).length = 1 ∧
    ((kgProcessCourse (kgProcessFaculty ⟨[], []⟩
        (.fromList [{ name := "A" }])).1 .failed).1.all_queries).length = 2 := by
  refine ⟨by decide, by decide, by decide⟩

/-- C3: a relationship-upsert operation whose source or target endpoint
matches no stored node is a no-op at apply time: the store (its nodes and
its edges) is unchanged, so no endpoint node is ever created as a side
effect. -/
theorem C3_relationship_no_dangling (fl fp fv tl tp tv rt : String)
    (rp : List (String × String)) (s : Store)
    (h : s.nodes.any (fun n => nodeMatches n fl fp fv) = false ∨
         s.nodes.any (fun n => nodeMatches n tl tp tv) = false) :
    applyOp s (.rel fl fp fv tl tp tv rt rp) = s := by
  simp only [applyOp]
  rcases h with h | h <;> simp [h]

/-- Witness for C3: merging a `BELONGS_TO` edge into the empty store (no
endpoints exist) leaves it unchanged. -/
theorem C3_relationship_no_dangling_witness :
    ((⟨[], []⟩ : Store).nodes.any (fun n => nodeMatches n "Faculty" "name" "A") = false ∨
     (⟨[], []⟩ : Store).nodes.any (fun n => nodeMatches n "Department" "name" "CS") = false) ∧
    applyOp ⟨[], []⟩ (.rel "Faculty" "name" "A" "Department" "name" "CS" "BELONGS_TO" []) =
      (⟨[], []⟩ : Store) :=
  ⟨Or.inl (by decide),
   C3_relationship_no_dangling "Faculty" "name" "A" "Department" "name" "CS" "BELONGS_TO"
     [] ⟨[], []⟩ (Or.inl (by decide))⟩
